import Mathlib

/-!
Verification development for the smart-mirror memo module
(`memo_module.py`): a shallow embedding of its components
(`VoiceRecognizer`, `AudioRecorder`, `VideoRecorder`, `MemoManager`,
`SmartMirrorMemo`) as pure Lean functions, followed by theorems about
the embedded operations.

Modelling conventions:
- Python strings are Lean `String`s; Python string primitives used by the
  source (`in` substring test, `lower()`, `replace`, `split`, `startswith`,
  `endswith`, `os.path.join`) are embedded below as `py*` helpers with the
  same semantics on Unicode code-point sequences.
- Environment inputs that the source reads implicitly are explicit
  parameters: `datetime.now().strftime("%Y%m%d_%H%M%S")` becomes a
  timestamp-string argument, the module-level `PYAUDIO_AVAILABLE` flag a
  boolean argument, and directory listings / file metadata explicit lists.
- Background capture threads are modelled by their observable effect on the
  shared buffer: the audio record loop's body (append one chunk while
  `is_recording`) is the operation `AudioRecorder.record_chunk`.
- File writes are modelled as returned values (`WavFile` for the WAV
  flush; an open `VideoWriter` value stands for the output container that
  `cv2.VideoWriter` creates on construction).
-/

/-! ### Python string-primitive models -/

/-- Model of Python `sub in s` (contiguous substring test on code points). -/
def pyContains (sub s : String) : Bool := decide (sub.data <:+: s.data)

/-- Model of Python `s.startswith(pre)`. -/
def pyStartswith (s pre : String) : Bool := decide (pre.data <+: s.data)

/-- Model of Python `s.endswith(suf)`. -/
def pyEndswith (s suf : String) : Bool := decide (suf.data <:+ s.data)

/-- Model of Python `s.lower()` restricted to the ASCII case mapping
(the keyword sets of the source contain only ASCII-lowercase and Korean
characters, which `str.lower` leaves unchanged). -/
def pyLower (s : String) : String := ⟨s.data.map Char.toLower⟩

/-- Recursion core of the Python `str.replace` model, structurally
recursive on a fuel bound: each step consumes at least one character, so
with `fuel = s.length` the fuel never runs out. -/
def replaceAllFuel (pat repl : List Char) : Nat → List Char → List Char
  | 0, s => s
  | fuel + 1, s =>
    match s with
    | [] => []
    | c :: cs =>
      if pat ≠ [] ∧ pat.isPrefixOf (c :: cs) then
        repl ++ replaceAllFuel pat repl fuel ((c :: cs).drop pat.length)
      else
        c :: replaceAllFuel pat repl fuel cs

/-- Model of Python `s.replace(pat, repl)` on code-point lists: replaces
every non-overlapping occurrence of `pat`, scanning left to right.
(The source only calls it with the non-empty pattern `".mp4"`.) -/
def replaceAll (pat repl s : List Char) : List Char :=
  replaceAllFuel pat repl s.length s

/-- Model of Python `s.replace(pat, repl)` as a `String` operation. -/
def pyReplace (s pat repl : String) : String :=
  ⟨replaceAll pat.data repl.data s.data⟩

/-- Model of Python `s.split(sep)` for a single-character separator
(keeps empty fields, as Python does for a non-empty separator). -/
def splitOnChar (sep : Char) : List Char → List (List Char)
  | [] => [[]]
  | c :: cs =>
    let r := splitOnChar sep cs
    if c = sep then [] :: r
    else
      match r with
      | [] => [[c]]
      | h :: t => (c :: h) :: t

/-- Model of Python `os.path.join(dir, name)` on POSIX (the source always
joins a directory without a trailing separator to a plain filename). -/
def pyPathJoin (dir name : String) : String := dir ++ "/" ++ name

/-! ### Timestamp parsing (`datetime.strptime(s, "%Y%m%d_%H%M%S")`)

Modelled for the canonical 15-character form `YYYYMMDD_HHMMSS` produced by
`strftime("%Y%m%d_%H%M%S")`: four year digits, two month, two day, an
underscore, then two each of hour/minute/second, with calendar-valid
ranges (strptime's final `datetime(...)` construction rejects e.g. a
February 30th).  Any other shape yields `none` (a `ValueError` in the
source, which then falls back to the file's mtime).  A parsed datetime is
represented by its lexicographic `Nat` key, which orders datetimes
chronologically. -/

/-- Numeric value of a decimal digit character, `none` if not a digit. -/
def digitVal (c : Char) : Option Nat :=
  if '0' ≤ c ∧ c ≤ '9' then some (c.toNat - '0'.toNat) else none

/-- Decimal value of a digit list, `none` if any char is not a digit. -/
def digitsVal : List Char → Option Nat
  | [] => some 0
  | c :: cs => do
    let d ← digitVal c
    let r ← digitsVal cs
    pure (d * 10 ^ cs.length + r)

/-- Gregorian leap-year test (as used by `datetime`). -/
def isLeapYear (y : Nat) : Bool :=
  (y % 4 = 0 ∧ y % 100 ≠ 0) ∨ y % 400 = 0

/-- Days in a month of a given year (as validated by `datetime`). -/
def daysInMonth (y m : Nat) : Nat :=
  if m = 2 then (if isLeapYear y then 29 else 28)
  else if m = 4 ∨ m = 6 ∨ m = 9 ∨ m = 11 then 30
  else 31

/-- Lexicographic key of a datetime; orders datetimes chronologically. -/
def datetimeKey (y mo d h mi s : Nat) : Nat :=
  ((((y * 100 + mo) * 100 + d) * 100 + h) * 100 + mi) * 100 + s

/-- `strptime` model for the fixed format `"%Y%m%d_%H%M%S"`: parses the
canonical `YYYYMMDD_HHMMSS` shape into a `datetimeKey`, `none` on any
mismatch or calendar-invalid field (the source's `ValueError`). -/
def strptimeKey (cs : List Char) : Option Nat :=
  match cs with
  | [y1, y2, y3, y4, m1, m2, d1, d2, u, h1, h2, mi1, mi2, s1, s2] =>
    if u = '_' then do
      let y ← digitsVal [y1, y2, y3, y4]
      let mo ← digitsVal [m1, m2]
      let d ← digitsVal [d1, d2]
      let h ← digitsVal [h1, h2]
      let mi ← digitsVal [mi1, mi2]
      let s ← digitsVal [s1, s2]
      if 1 ≤ mo ∧ mo ≤ 12 ∧ 1 ≤ d ∧ d ≤ daysInMonth y mo ∧
          h ≤ 23 ∧ mi ≤ 59 ∧ s ≤ 59 then
        pure (datetimeKey y mo d h mi s)
      else none
    else none
  | _ => none

/-! ### `VoiceRecognizer` command matching (`memo_module.py:34-120`) -/

namespace VoiceRecognizer

/-- The voice-memo keyword set of `VoiceRecognizer.COMMANDS`
(`memo_module.py:39`). -/
def voice_keywords : List String := ["음성 메모", "음성 녹음", "보이스 메모", "voice memo"]

/-- The video-memo keyword set of `VoiceRecognizer.COMMANDS`
(`memo_module.py:40`). -/
def video_keywords : List String :=
  ["영상 메모", "영상 녹화", "비디오 메모", "비디오 녹화", "video memo"]

/-- The stop keyword set of `VoiceRecognizer.COMMANDS`
(`memo_module.py:41`). -/
def stop_keywords : List String := ["중지", "스탑", "그만", "stop", "끝"]

/-- `VoiceRecognizer.COMMANDS` (`memo_module.py:38-42`): the three keyword
sets, in the dict's insertion order (voice, video, stop), which is the
iteration order of `_match_command`. -/
def COMMANDS : List (String × List String) :=
  [ ("voice_memo", voice_keywords),
    ("video_memo", video_keywords),
    ("stop", stop_keywords) ]

/-- The text contains a keyword of the set `kws` after lower-casing:
the membership test of `_match_command` (`memo_module.py:117-118`). -/
def containsKeyword (kws : List String) (text : String) : Prop :=
  ∃ kw ∈ kws, kw.data <:+: (pyLower text).data

instance (kws : List String) (text : String) :
    Decidable (containsKeyword kws text) := by
  unfold containsKeyword; infer_instance

/-- `VoiceRecognizer._match_command` (`memo_module.py:113-120`):
lower-cases the text and returns the command type of the first keyword
set (in `COMMANDS` order) containing a keyword that occurs in the text. -/
def match_command (text : String) : Option String :=
  let text_lower := pyLower text
  COMMANDS.findSome? fun p =>
    if p.2.any (fun keyword => pyContains keyword text_lower) then some p.1
    else none

end VoiceRecognizer

/-! ### `AudioRecorder` (`memo_module.py:123-216`) -/

/-- A WAV container file as written by `AudioRecorder._save_wav`
(`memo_module.py:205-216`): `wave.writeframes` stores the concatenated
chunk bytes and declares a frame (sample) count of byte-length divided by
`sampwidth * nchannels` = 2, i.e. exactly the number of 16-bit samples.
`samples` holds those samples, so the declared sample count is
`samples.length`. -/
structure WavFile where
  path : String
  nchannels : Nat
  sampwidth : Nat
  framerate : Nat
  samples : List Int
deriving DecidableEq, Repr

/-- `AudioRecorder` state (`memo_module.py:126-140`).  A buffered chunk
(one `stream.read(self.chunk)` result) is modelled as its list of 16-bit
samples. -/
structure AudioRecorder where
  save_dir : String
  is_recording : Bool
  frames : List (List Int)
  current_file : Option String
deriving DecidableEq, Repr

namespace AudioRecorder

/-- `AudioRecorder.__init__` (`memo_module.py:126-140`). -/
def init (save_dir : String) : AudioRecorder :=
  { save_dir := save_dir, is_recording := false, frames := [],
    current_file := none }

/-- `AudioRecorder.start_recording` (`memo_module.py:142-162`).
`pyaudio_available` is the module flag `PYAUDIO_AVAILABLE`; `timestamp`
is `datetime.now().strftime("%Y%m%d_%H%M%S")`.  Returns the path result
and the updated recorder. -/
def start_recording (pyaudio_available : Bool) (timestamp : String)
    (r : AudioRecorder) : Option String × AudioRecorder :=
  if pyaudio_available = false then (none, r)
  else if r.is_recording then (r.current_file, r)
  else
    let f := pyPathJoin r.save_dir ("voice_memo_" ++ timestamp ++ ".wav")
    (some f, { r with current_file := some f, is_recording := true,
                      frames := [] })

/-- One iteration of the `_record_loop` body (`memo_module.py:193-195`):
while recording, a chunk read from the stream is appended to the buffer;
once `is_recording` is false the loop appends nothing. -/
def record_chunk (chunk : List Int) (r : AudioRecorder) : AudioRecorder :=
  if r.is_recording then { r with frames := r.frames ++ [chunk] } else r

/-- `AudioRecorder.stop_recording` (`memo_module.py:164-179`) together
with `_save_wav` (`memo_module.py:205-216`): returns
(path result, WAV file written if any, updated recorder).  The WAV file
is written, and the path returned, only when both the chunk buffer and
the current file are non-empty (`if self._frames and self._current_file`);
otherwise no file is created and the result is `none`. -/
def stop_recording (r : AudioRecorder) :
    Option String × Option WavFile × AudioRecorder :=
  if r.is_recording = false then (none, none, r)
  else
    let r' := { r with is_recording := false }
    match r.current_file, r.frames with
    | some f, c :: cs =>
      (some f, some { path := f, nchannels := 1, sampwidth := 2,
                      framerate := 44100, samples := ((c :: cs) : List (List Int)).flatten }, r')
    | _, _ => (none, none, r')

end AudioRecorder

/-! ### `VideoRecorder` (`memo_module.py:219-295`) -/

/-- The open `cv2.VideoWriter` (`memo_module.py:250-256`): constructing it
creates and opens the output container file at `path`, so a zero-frame
file exists on disk as soon as recording starts.  `frames` records the
dimensions of each frame appended by `write`. -/
structure VideoWriter where
  path : String
  fps : Nat
  frame_size : Nat × Nat
  frames : List (Nat × Nat)
deriving DecidableEq, Repr

/-- `VideoRecorder` state (`memo_module.py:222-234`). -/
structure VideoRecorder where
  save_dir : String
  is_recording : Bool
  current_file : Option String
  video_writer : Option VideoWriter
  audio_recorder : Option AudioRecorder
  frame_size : Nat × Nat
deriving DecidableEq, Repr

namespace VideoRecorder

/-- `VideoRecorder.__init__` (`memo_module.py:222-234`). -/
def init (save_dir : String) : VideoRecorder :=
  { save_dir := save_dir, is_recording := false, current_file := none,
    video_writer := none, audio_recorder := none, frame_size := (640, 480) }

/-- `VideoRecorder.start_recording` (`memo_module.py:236-267`).
`timestamp` is the video file's `datetime.now()` stamp; the nested
`AudioRecorder.start_recording` call makes its own `datetime.now()` call,
passed here as `audio_timestamp`.  The companion recorder is freshly
constructed, its `_current_file` is assigned the `_audio.wav` sidecar
path, and — when PyAudio is available — `start_recording` is then called
on it (`memo_module.py:258-263`). -/
def start_recording (pyaudio_available : Bool)
    (timestamp audio_timestamp : String) (frame_size : Option (Nat × Nat))
    (v : VideoRecorder) : Option String × VideoRecorder :=
  if v.is_recording then (v.current_file, v)
  else
    let v := match frame_size with
             | some sz => { v with frame_size := sz }
             | none => v
    let file := pyPathJoin v.save_dir ("video_memo_" ++ timestamp ++ ".mp4")
    let writer : VideoWriter :=
      { path := file, fps := 30, frame_size := v.frame_size, frames := [] }
    let audio_file := pyReplace file ".mp4" "_audio.wav"
    let ar0 := { AudioRecorder.init v.save_dir with
                 current_file := some audio_file }
    let ar := if pyaudio_available then
                (ar0.start_recording pyaudio_available audio_timestamp).2
              else ar0
    (some file, { v with current_file := some file,
                         video_writer := some writer,
                         audio_recorder := some ar,
                         is_recording := true })

/-- `VideoRecorder.write_frame` (`memo_module.py:269-275`): while
recording with an open writer, a frame whose dimensions differ from the
configured frame size is resized (stretched) to that size before being
appended. -/
def write_frame (frame : Nat × Nat) (v : VideoRecorder) : VideoRecorder :=
  if v.is_recording ∧ v.video_writer.isSome then
    let frame := if frame ≠ v.frame_size then v.frame_size else frame
    { v with video_writer :=
        v.video_writer.map fun w => { w with frames := w.frames ++ [frame] } }
  else v

/-- `VideoRecorder.stop_recording` (`memo_module.py:277-295`): releases
the writer, stops the companion audio recorder (returning the sidecar WAV
it flushes, if any), and returns `self._current_file`.  Returns `none`
only when not recording. -/
def stop_recording (v : VideoRecorder) :
    Option String × Option WavFile × VideoRecorder :=
  if v.is_recording = false then (none, none, v)
  else
    let v1 := { v with is_recording := false, video_writer := none }
    match v.audio_recorder with
    | none => (v.current_file, none, v1)
    | some ar =>
      let (_, wav, _) := ar.stop_recording
      (v.current_file, wav, { v1 with audio_recorder := none })

end VideoRecorder

/-! ### `MemoManager` (`memo_module.py:298-371`) -/

/-- A directory entry as observed by `os.listdir` plus the `os.path`
metadata the source reads for it.  `mtimeKey` is the `datetimeKey` of the
datetime that `datetime.fromtimestamp(os.path.getmtime(path))` yields
(`fromtimestamp` is an order-preserving conversion from the raw mtime). -/
structure FileEntry where
  filename : String
  is_file : Bool
  mtimeKey : Nat
  size : Nat
deriving DecidableEq, Repr

/-- One element of the list `MemoManager.get_all_memos` returns
(`memo_module.py:335-341`); `timestampKey` is the `datetimeKey` of its
`timestamp` field. -/
structure MemoRecord where
  filename : String
  filepath : String
  type : String
  timestampKey : Nat
  size : Nat
deriving DecidableEq, Repr

namespace MemoManager

/-- Timestamp extraction of `get_all_memos` (`memo_module.py:328-333`):
`filename.split("_")[2] + "_" + filename.split("_")[3].split(".")[0]`
parsed with `strptime`; an `IndexError` (fewer than four `_`-fields) or
`ValueError` (parse failure) falls back to the file's mtime. -/
def extractTimestampKey (filename : String) (mtimeKey : Nat) : Nat :=
  let parts := splitOnChar '_' filename.data
  match parts.get? 2, parts.get? 3 with
  | some p2, some p3 =>
    let ts := p2 ++ '_' :: (splitOnChar '.' p3).headD []
    match strptimeKey ts with
    | some k => k
    | none => mtimeKey
  | _, _ => mtimeKey

/-- Classification and filtering step of `get_all_memos`
(`memo_module.py:312-341`) for one directory entry: skips non-files,
skips any name containing `"_audio.wav"`, classifies `voice_memo*.wav`
as voice and `video_memo*.mp4` as video, and drops everything else. -/
def classify (memo_dir : String) (f : FileEntry) : Option MemoRecord :=
  if f.is_file = false then none
  else if pyContains "_audio.wav" f.filename then none
  else
    let memo_type : Option String :=
      if pyStartswith f.filename "voice_memo" ∧ pyEndswith f.filename ".wav"
      then some "voice"
      else if pyStartswith f.filename "video_memo" ∧ pyEndswith f.filename ".mp4"
      then some "video"
      else none
    match memo_type with
    | none => none
    | some t =>
      some { filename := f.filename,
             filepath := pyPathJoin memo_dir f.filename,
             type := t,
             timestampKey := extractTimestampKey f.filename f.mtimeKey,
             size := f.size }

/-- The descending comparison of the sort in `get_all_memos`
(`memo_module.py:344`): record `a` may precede record `b` when `b` is
not newer. -/
def newestFirst (a b : MemoRecord) : Prop := b.timestampKey ≤ a.timestampKey

instance : DecidableRel newestFirst := by
  unfold newestFirst; infer_instance

/-- Stable descending insertion step for the sort of `get_all_memos`:
walks past strictly-newer records, so records with equal timestamps keep
their original relative order. -/
def insertByKeyDesc (a : MemoRecord) : List MemoRecord → List MemoRecord
  | [] => [a]
  | b :: bs =>
    if a.timestampKey < b.timestampKey then b :: insertByKeyDesc a bs
    else a :: b :: bs

/-- `memos.sort(key=lambda x: x["timestamp"], reverse=True)`
(`memo_module.py:344`): Python's sort is stable, and with `reverse=True`
it is a stable descending sort by the key; any stable sort with the same
comparator computes the same list, so it is embedded as a stable
insertion sort. -/
def sortByKeyDesc : List MemoRecord → List MemoRecord
  | [] => []
  | a :: as => insertByKeyDesc a (sortByKeyDesc as)

/-- `MemoManager.get_all_memos` (`memo_module.py:305-345`): scans the
directory listing, classifies each entry, and sorts newest-first.
`dir_exists` models the `os.path.exists(self.memo_dir)` guard. -/
def get_all_memos (memo_dir : String) (dir_exists : Bool)
    (listing : List FileEntry) : List MemoRecord :=
  if dir_exists = false then []
  else sortByKeyDesc (listing.filterMap (classify memo_dir))

/-- A filesystem for `delete_memo`: the set of existing paths, plus the
set of paths whose `os.remove` raises an `OSError` (permission failure
etc.).  `os.remove` on a path in `failing` raises; otherwise it removes
the path. -/
structure FSState where
  files : List String
  failing : List String
deriving DecidableEq, Repr

/-- `os.remove` model: raises (`Except.error`) on a `failing` path,
otherwise removes the path from the filesystem. -/
def osRemove (fs : FSState) (p : String) : Except Unit FSState :=
  if p ∈ fs.failing then Except.error ()
  else Except.ok { fs with files := fs.files.erase p }

/-- `MemoManager.delete_memo` (`memo_module.py:347-362`): inside a
`try`, removes the target if it exists, then derives the sidecar path by
`filepath.replace('.mp4', '_audio.wav')` and removes it too if it exists,
returning `True`; any raised `OSError` is caught and `False` is returned
(with the filesystem left as mutated so far).  A non-existent target also
returns `False`. -/
def delete_memo (fs : FSState) (filepath : String) : Bool × FSState :=
  if filepath ∈ fs.files then
    match osRemove fs filepath with
    | Except.error _ => (false, fs)
    | Except.ok fs1 =>
      let audio_path := pyReplace filepath ".mp4" "_audio.wav"
      if audio_path ∈ fs1.files then
        match osRemove fs1 audio_path with
        | Except.error _ => (false, fs1)
        | Except.ok fs2 => (true, fs2)
      else (true, fs1)
  else (false, fs)

/-- `MemoManager.get_memo_count` (`memo_module.py:364-371`). -/
def get_memo_count (memo_dir : String) (dir_exists : Bool)
    (listing : List FileEntry) : Nat × Nat × Nat :=
  let memos := get_all_memos memo_dir dir_exists listing
  (memos.length,
   (memos.filter fun m => m.type = "voice").length,
   (memos.filter fun m => m.type = "video").length)

end MemoManager

/-! ### `SmartMirrorMemo` coordinator (`memo_module.py:374-490`) -/

/-- A lifecycle-callback invocation made by the coordinator: `start m`
is a call of `on_recording_start(m)`, `stop m p` a call of
`on_recording_stop(m, p)`. -/
inductive MemoEvent where
  | start (mode : String)
  | stop (mode : String) (path : Option String)
deriving DecidableEq, Repr

/-- `SmartMirrorMemo` state (`memo_module.py:377-397`).  The callback
fields hold functions in the source; the embedding keeps only whether
each is set (`if self.on_recording_start: ...`), and operations return
the list of callback invocations they perform. -/
structure SmartMirrorMemo where
  audio_recorder : AudioRecorder
  video_recorder : VideoRecorder
  current_mode : Option String
  on_recording_start_set : Bool
  on_recording_stop_set : Bool
deriving DecidableEq, Repr

namespace SmartMirrorMemo

/-- `SmartMirrorMemo.__init__` (`memo_module.py:377-397`). -/
def init (save_dir : String) : SmartMirrorMemo :=
  { audio_recorder := AudioRecorder.init save_dir,
    video_recorder := VideoRecorder.init save_dir,
    current_mode := none,
    on_recording_start_set := false,
    on_recording_stop_set := false }

/-- `SmartMirrorMemo.start_voice_memo` (`memo_module.py:423-435`): if a
mode is already set, logs and returns `None` with nothing changed;
otherwise sets `current_mode = "voice"`, delegates to
`AudioRecorder.start_recording`, invokes `on_recording_start("voice")`
if set, and returns the delegate's path result. -/
def start_voice_memo (pyaudio_available : Bool) (timestamp : String)
    (s : SmartMirrorMemo) :
    Option String × SmartMirrorMemo × List MemoEvent :=
  if s.current_mode.isSome then (none, s, [])
  else
    let (filepath, ar) :=
      s.audio_recorder.start_recording pyaudio_available timestamp
    (filepath,
     { s with current_mode := some "voice", audio_recorder := ar },
     if s.on_recording_start_set then [MemoEvent.start "voice"] else [])

/-- `SmartMirrorMemo.start_video_memo` (`memo_module.py:437-449`): same
pattern via `VideoRecorder.start_recording`. -/
def start_video_memo (pyaudio_available : Bool)
    (timestamp audio_timestamp : String) (frame_size : Option (Nat × Nat))
    (s : SmartMirrorMemo) :
    Option String × SmartMirrorMemo × List MemoEvent :=
  if s.current_mode.isSome then (none, s, [])
  else
    let (filepath, vr) :=
      s.video_recorder.start_recording pyaudio_available timestamp
        audio_timestamp frame_size
    (filepath,
     { s with current_mode := some "video", video_recorder := vr },
     if s.on_recording_start_set then [MemoEvent.start "video"] else [])

/-- `SmartMirrorMemo.write_video_frame` (`memo_module.py:451-454`):
passes the frame through only while `current_mode == "video"` and the
video recorder is recording. -/
def write_video_frame (frame : Nat × Nat) (s : SmartMirrorMemo) :
    SmartMirrorMemo :=
  if s.current_mode = some "video" ∧ s.video_recorder.is_recording then
    { s with video_recorder := s.video_recorder.write_frame frame }
  else s

/-- `SmartMirrorMemo.stop_recording` (`memo_module.py:456-474`): when
idle returns `None` with no callback; otherwise captures the mode,
delegates to the matching recorder's stop, clears `current_mode`, invokes
`on_recording_stop(mode, filepath)` if set, and returns the path. -/
def stop_recording (s : SmartMirrorMemo) :
    Option String × SmartMirrorMemo × List MemoEvent :=
  match s.current_mode with
  | none => (none, s, [])
  | some mode =>
    let (filepath, s1) :=
      if mode = "voice" then
        let (fp, _, ar) := s.audio_recorder.stop_recording
        (fp, { s with audio_recorder := ar })
      else if mode = "video" then
        let (fp, _, vr) := s.video_recorder.stop_recording
        (fp, { s with video_recorder := vr })
      else (none, s)
    (filepath,
     { s1 with current_mode := none },
     if s.on_recording_stop_set then [MemoEvent.stop mode filepath] else [])

/-- `SmartMirrorMemo.is_recording` (`memo_module.py:476-478`). -/
def is_recording (s : SmartMirrorMemo) : Bool := s.current_mode.isSome

/-- `SmartMirrorMemo.get_recording_mode` (`memo_module.py:480-482`). -/
def get_recording_mode (s : SmartMirrorMemo) : Option String := s.current_mode

/-- `SmartMirrorMemo._on_voice_command` (`memo_module.py:412-421`). -/
def on_voice_command (pyaudio_available : Bool)
    (timestamp audio_timestamp : String) (command : String)
    (s : SmartMirrorMemo) : SmartMirrorMemo × List MemoEvent :=
  if command = "voice_memo" then
    let (_, s', evs) := s.start_voice_memo pyaudio_available timestamp
    (s', evs)
  else if command = "video_memo" then
    let (_, s', evs) :=
      s.start_video_memo pyaudio_available timestamp audio_timestamp none
    (s', evs)
  else if command = "stop" then
    let (_, s', evs) := s.stop_recording
    (s', evs)
  else (s, [])

end SmartMirrorMemo

/-! ### Concrete instances used by counterexamples and witnesses -/

/-- A fresh coordinator on `"memos"` with both lifecycle callbacks set. -/
def demoSession : SmartMirrorMemo :=
  { SmartMirrorMemo.init "memos" with
    on_recording_start_set := true, on_recording_stop_set := true }

/-- `demoSession` mid-voice-recording with two buffered audio chunks. -/
def demoVoiceSession : SmartMirrorMemo :=
  { demoSession with
    current_mode := some "voice",
    audio_recorder :=
      { save_dir := "memos", is_recording := true,
        frames := [[1, 2], [3]],
        current_file := some "memos/voice_memo_20240101_120000.wav" } }

/-- The result of starting a video recording on a fresh recorder at
timestamp `20240101_120000` with PyAudio available (the nested audio
start also stamps `20240101_120000`). -/
def demoVideoStart : Option String × VideoRecorder :=
  (VideoRecorder.init "memos").start_recording true
    "20240101_120000" "20240101_120000" none

/-- `demoVideoStart`'s recorder after its capture loop buffered one audio
chunk. -/
def demoVideoMidSession : VideoRecorder :=
  { demoVideoStart.2 with
    audio_recorder :=
      demoVideoStart.2.audio_recorder.map (AudioRecorder.record_chunk [0]) }

/-- Directory listing holding one video memo and its audio sidecar. -/
def demoListing : List FileEntry :=
  [ { filename := "video_memo_20240101_120000.mp4", is_file := true,
      mtimeKey := 0, size := 100 },
    { filename := "video_memo_20240101_120000_audio.wav", is_file := true,
      mtimeKey := 0, size := 50 } ]

/-- The single record `get_all_memos` produces for `demoListing`. -/
def demoVideoRecord : MemoRecord :=
  { filename := "video_memo_20240101_120000.mp4",
    filepath := "memos/video_memo_20240101_120000.mp4",
    type := "video", timestampKey := datetimeKey 2024 1 1 12 0 0,
    size := 100 }

/-- A small filesystem for `delete_memo`: a video memo, its sidecar and a
voice memo, with no failing removals. -/
def demoFS : MemoManager.FSState :=
  { files := [ "memos/video_memo_20240101_120000.mp4",
               "memos/video_memo_20240101_120000_audio.wav",
               "memos/voice_memo_20240202_080000.wav" ],
    failing := [] }

/-! ### Theorems -/

/-- Helper: `_match_command` evaluated as a nested conditional over the
three keyword-set membership tests, in `COMMANDS` order. -/
theorem match_command_eval (text : String) :
    VoiceRecognizer.match_command text =
      (if VoiceRecognizer.containsKeyword VoiceRecognizer.voice_keywords text
       then some "voice_memo"
       else if VoiceRecognizer.containsKeyword VoiceRecognizer.video_keywords text
       then some "video_memo"
       else if VoiceRecognizer.containsKeyword VoiceRecognizer.stop_keywords text
       then some "stop"
       else none) := by
  have hiff : ∀ kws : List String,
      ((kws.any fun keyword => pyContains keyword (pyLower text)) = true) ↔
        VoiceRecognizer.containsKeyword kws text := by
    intro kws
    simp [VoiceRecognizer.containsKeyword, pyContains, List.any_eq_true]
  simp only [VoiceRecognizer.match_command, VoiceRecognizer.COMMANDS,
    List.findSome?_cons, List.findSome?_nil]
  by_cases h1 : VoiceRecognizer.containsKeyword VoiceRecognizer.voice_keywords text <;>
  by_cases h2 : VoiceRecognizer.containsKeyword VoiceRecognizer.video_keywords text <;>
  by_cases h3 : VoiceRecognizer.containsKeyword VoiceRecognizer.stop_keywords text <;>
  simp [hiff, h1, h2, h3]

/-- C8: `_match_command` is a pure function of its input text: it
lower-cases the input and tests the voice-memo, video-memo, and stop
keyword sets in that fixed priority order, returning the command of the
first set containing a keyword occurring in the text; a text with
keywords from two sets resolves to the higher-priority set, and a text
containing no keyword yields `none`. -/
theorem match_command_keyword_priority (text : String) :
    (VoiceRecognizer.containsKeyword VoiceRecognizer.voice_keywords text →
        VoiceRecognizer.match_command text = some "voice_memo") ∧
    (¬VoiceRecognizer.containsKeyword VoiceRecognizer.voice_keywords text →
      VoiceRecognizer.containsKeyword VoiceRecognizer.video_keywords text →
        VoiceRecognizer.match_command text = some "video_memo") ∧
    (¬VoiceRecognizer.containsKeyword VoiceRecognizer.voice_keywords text →
      ¬VoiceRecognizer.containsKeyword VoiceRecognizer.video_keywords text →
      VoiceRecognizer.containsKeyword VoiceRecognizer.stop_keywords text →
        VoiceRecognizer.match_command text = some "stop") ∧
    (¬VoiceRecognizer.containsKeyword VoiceRecognizer.voice_keywords text →
      ¬VoiceRecognizer.containsKeyword VoiceRecognizer.video_keywords text →
      ¬VoiceRecognizer.containsKeyword VoiceRecognizer.stop_keywords text →
        VoiceRecognizer.match_command text = none) := by
  refine ⟨fun h1 => ?_, fun h1 h2 => ?_, fun h1 h2 h3 => ?_, fun h1 h2 h3 => ?_⟩
  · rw [match_command_eval, if_pos h1]
  · rw [match_command_eval, if_neg h1, if_pos h2]
  · rw [match_command_eval, if_neg h1, if_neg h2, if_pos h3]
  · rw [match_command_eval, if_neg h1, if_neg h2, if_neg h3]

/-- C8 witness: the text "비디오 메모 stop" contains both a video-memo
keyword and a stop keyword and resolves to the higher-priority
video-memo command. -/
theorem match_command_keyword_priority_witness :
    VoiceRecognizer.match_command "비디오 메모 stop" = some "video_memo" :=
  (match_command_keyword_priority "비디오 메모 stop").2.1
    (by decide) (by decide)
/-- C4: while a voice or video session is active, `start_voice_memo` and
`start_video_memo` are no-ops: they return `None`, leave the whole
coordinator state (mode, recorders with their file paths) unchanged,
start no capture, and invoke no `on_recording_start` callback. -/
theorem start_while_recording_noop (pyaudio_available : Bool)
    (ts ats : String) (frame_size : Option (Nat × Nat))
    (s : SmartMirrorMemo)
    (h : s.current_mode = some "voice" ∨ s.current_mode = some "video") :
    s.start_voice_memo pyaudio_available ts = (none, s, []) ∧
    s.start_video_memo pyaudio_available ts ats frame_size = (none, s, []) := by
  have hsome : s.current_mode.isSome = true := by
    rcases h with h | h <;> simp [h]
  constructor <;>
    simp [SmartMirrorMemo.start_voice_memo, SmartMirrorMemo.start_video_memo,
      hsome]

/-- C4 witness: starting while `demoVoiceSession` is recording voice
changes nothing and fires nothing. -/
theorem start_while_recording_noop_witness :
    demoVoiceSession.start_voice_memo true "20240303_010101" =
      (none, demoVoiceSession, []) ∧
    demoVoiceSession.start_video_memo true "20240303_010101"
        "20240303_010101" none = (none, demoVoiceSession, []) :=
  start_while_recording_noop true "20240303_010101" "20240303_010101" none
    demoVoiceSession (Or.inl rfl)

/-- Helper: any `stop_recording` call leaves `current_mode = none`. -/
theorem stop_recording_clears_mode (s : SmartMirrorMemo) :
    (s.stop_recording).2.1.current_mode = none := by
  unfold SmartMirrorMemo.stop_recording
  cases hm : s.current_mode with
  | none => simp [hm]
  | some mode => simp [hm]

/-- C5: `stop_recording` while Idle returns `None`, fires no callback,
and leaves the state unchanged; in particular, after any
`stop_recording` call the next `stop_recording` (the second of two
back-to-back stops) returns `None` with no second callback and no state
change. -/
theorem stop_when_idle_noop :
    (∀ s : SmartMirrorMemo, s.current_mode = none →
        s.stop_recording = (none, s, [])) ∧
    (∀ s : SmartMirrorMemo,
        ((s.stop_recording).2.1).stop_recording =
          (none, (s.stop_recording).2.1, [])) := by
  have hidle : ∀ s : SmartMirrorMemo, s.current_mode = none →
      s.stop_recording = (none, s, []) := by
    intro s h
    unfold SmartMirrorMemo.stop_recording
    simp [h]
  exact ⟨hidle, fun s => hidle _ (stop_recording_clears_mode s)⟩

/-- C5 witness: stopping the idle `demoSession`, and stopping again
right after stopping the recording `demoVoiceSession`, both return
`None` with no callback and no state change. -/
theorem stop_when_idle_noop_witness :
    demoSession.stop_recording = (none, demoSession, []) ∧
    ((demoVoiceSession.stop_recording).2.1).stop_recording =
      (none, (demoVoiceSession.stop_recording).2.1, []) :=
  ⟨stop_when_idle_noop.1 demoSession rfl,
   stop_when_idle_noop.2 demoVoiceSession⟩

/-- C2 counterexample: on a fresh Idle session with the `on_recording_start`
callback set, `start_voice_memo` with the audio backend unavailable
(`PYAUDIO_AVAILABLE = False`, so `AudioRecorder.start_recording` returns
`None`) returns `None` — but, contrary to the claim, the session does
not remain Idle: `current_mode` becomes `"voice"`, `is_recording()`
flips to true, and `on_recording_start("voice")` is fired anyway. -/
theorem start_voice_memo_failure_not_idle_counterexample :
    (demoSession.start_voice_memo false "20240101_120000").1 = none ∧
    (demoSession.start_voice_memo false "20240101_120000").2.1.current_mode
      = some "voice" ∧
    (demoSession.start_voice_memo false "20240101_120000").2.1.current_mode
      ≠ none ∧
    (demoSession.start_voice_memo false "20240101_120000").2.1.is_recording
      = true ∧
    (demoSession.start_voice_memo false "20240101_120000").2.2
      = [MemoEvent.start "voice"] := by
  refine ⟨rfl, rfl, ?_, rfl, rfl⟩
  decide

/-- C2 (amended): when `AudioRecorder.startRecording` fails (returns
`None` because the audio backend is unavailable), `start_voice_memo`
called while Idle still returns `None` — but the session does not remain
Idle: the code sets `current_mode = "voice"` before delegating and never
checks the delegate's result, so `is_recording()` becomes true and the
`on_recording_start` callback (when set) fires even on failure. -/
theorem start_voice_memo_failure_still_transitions (ts : String)
    (s : SmartMirrorMemo) (h : s.current_mode = none) :
    (s.start_voice_memo false ts).1 = none ∧
    (s.start_voice_memo false ts).2.1.current_mode = some "voice" ∧
    (s.start_voice_memo false ts).2.1.is_recording = true ∧
    (s.start_voice_memo false ts).2.2 =
      (if s.on_recording_start_set then [MemoEvent.start "voice"] else []) := by
  unfold SmartMirrorMemo.start_voice_memo
  simp [h, AudioRecorder.start_recording, SmartMirrorMemo.is_recording]

/-- C2 witness: the amended behavior at the fresh `demoSession`. -/
theorem start_voice_memo_failure_still_transitions_witness :
    (demoSession.start_voice_memo false "20240101_120000").1 = none ∧
    (demoSession.start_voice_memo false "20240101_120000").2.1.current_mode
      = some "voice" ∧
    (demoSession.start_voice_memo false "20240101_120000").2.1.is_recording
      = true ∧
    (demoSession.start_voice_memo false "20240101_120000").2.2 =
      (if demoSession.on_recording_start_set then [MemoEvent.start "voice"]
       else []) :=
  start_voice_memo_failure_still_transitions "20240101_120000" demoSession rfl

/-- C3: stopping while a voice or video session is active always returns
the coordinator to Idle (`current_mode = none`, even when the delegated
stop yields no file), fires exactly one `on_recording_stop(mode, path)`
callback (when the callback is set) where `mode` is the mode captured
before clearing, and returns exactly the path produced by the delegated
capture component's `stop_recording`. -/
theorem stop_recording_active_returns_idle (s : SmartMirrorMemo) (m : String)
    (hm : s.current_mode = some m)
    (hmv : m = "voice" ∨ m = "video")
    (hcb : s.on_recording_stop_set = true) :
    (s.stop_recording).2.1.current_mode = none ∧
    (s.stop_recording).1 =
      (if m = "voice" then (s.audio_recorder.stop_recording).1
       else (s.video_recorder.stop_recording).1) ∧
    (s.stop_recording).2.2 = [MemoEvent.stop m ((s.stop_recording).1)] := by
  rcases hmv with hv | hv <;> subst hv <;>
    unfold SmartMirrorMemo.stop_recording <;>
    simp [hm, hcb]

/-- C3 witness: stopping the mid-recording `demoVoiceSession`. -/
theorem stop_recording_active_returns_idle_witness :
    (demoVoiceSession.stop_recording).2.1.current_mode = none ∧
    (demoVoiceSession.stop_recording).1 =
      (if "voice" = "voice"
       then (demoVoiceSession.audio_recorder.stop_recording).1
       else (demoVoiceSession.video_recorder.stop_recording).1) ∧
    (demoVoiceSession.stop_recording).2.2 =
      [MemoEvent.stop "voice" ((demoVoiceSession.stop_recording).1)] :=
  stop_recording_active_returns_idle demoVoiceSession "voice" rfl
    (Or.inl rfl) rfl

/-- C6: stopping an active audio session with at least one buffered chunk
writes a WAV container whose sample data is the concatenation of the
buffered chunks — so its declared sample count is the sum of the chunk
lengths — and returns the session's path; stopping with zero buffered
chunks returns `None` and writes no file at all. -/
theorem audio_stop_roundtrip (r : AudioRecorder) (f : String)
    (hrec : r.is_recording = true) (hf : r.current_file = some f) :
    (r.frames ≠ [] →
      (r.stop_recording).1 = some f ∧
      (r.stop_recording).2.1 =
        some { path := f, nchannels := 1, sampwidth := 2,
               framerate := 44100, samples := r.frames.flatten } ∧
      r.frames.flatten.length = (r.frames.map List.length).sum) ∧
    (r.frames = [] →
      (r.stop_recording).1 = none ∧ (r.stop_recording).2.1 = none) := by
  constructor
  · intro hne
    rcases hfr : r.frames with _ | ⟨c, cs⟩
    · exact absurd hfr hne
    · unfold AudioRecorder.stop_recording
      simp [hrec, hf, hfr, List.length_flatten]
  · intro hz
    unfold AudioRecorder.stop_recording
    simp [hrec, hf, hz]

/-- C6 witness: `demoVoiceSession`'s recorder holds chunks `[[1,2],[3]]`;
stopping returns its path and a WAV with samples `[1,2,3]` (declared
sample count `3 = 2 + 1`). -/
theorem audio_stop_roundtrip_witness :
    (demoVoiceSession.audio_recorder.stop_recording).1 =
      some "memos/voice_memo_20240101_120000.wav" ∧
    (demoVoiceSession.audio_recorder.stop_recording).2.1 =
      some { path := "memos/voice_memo_20240101_120000.wav",
             nchannels := 1, sampwidth := 2, framerate := 44100,
             samples := ([[1, 2], [3]] : List (List Int)).flatten } :=
  ⟨((audio_stop_roundtrip demoVoiceSession.audio_recorder _ rfl rfl).1
      (by decide)).1,
   ((audio_stop_roundtrip demoVoiceSession.audio_recorder _ rfl rfl).1
      (by decide)).2.1⟩

/-- C10: starting a video session on an inactive recorder opens the
output container (an open `VideoWriter` at the returned path, with zero
frames written so far, stands for the created file), and stopping it —
even with zero frames ever written — still returns that same path, while
an audio session stopped with zero captured chunks returns `None`. -/
theorem video_stop_returns_path_even_with_zero_frames
    (pyaudio_available : Bool) (ts ats : String)
    (frame_size : Option (Nat × Nat)) (v : VideoRecorder)
    (h : v.is_recording = false) :
    (v.start_recording pyaudio_available ts ats frame_size).1 =
      some (pyPathJoin v.save_dir ("video_memo_" ++ ts ++ ".mp4")) ∧
    ((v.start_recording pyaudio_available ts ats frame_size).2.video_writer.map
        VideoWriter.path) =
      some (pyPathJoin v.save_dir ("video_memo_" ++ ts ++ ".mp4")) ∧
    ((v.start_recording pyaudio_available ts ats frame_size).2.video_writer.map
        VideoWriter.frames) = some [] ∧
    ((v.start_recording pyaudio_available ts ats frame_size).2.stop_recording).1 =
      some (pyPathJoin v.save_dir ("video_memo_" ++ ts ++ ".mp4")) ∧
    (((AudioRecorder.init v.save_dir).start_recording true ats).2.stop_recording).1
      = none := by
  unfold VideoRecorder.start_recording VideoRecorder.stop_recording
    AudioRecorder.start_recording AudioRecorder.stop_recording
    AudioRecorder.init
  cases frame_size <;> cases pyaudio_available <;> simp [h]

/-- C10 witness: the fresh recorder of `demoVideoStart`: started, never
fed a frame, stopped — the video path is still reported, and a fresh
audio session stopped with nothing captured reports `None`. -/
theorem video_stop_returns_path_even_with_zero_frames_witness :
    demoVideoStart.1 = some "memos/video_memo_20240101_120000.mp4" ∧
    (demoVideoStart.2.video_writer.map VideoWriter.path) =
      some "memos/video_memo_20240101_120000.mp4" ∧
    (demoVideoStart.2.video_writer.map VideoWriter.frames) = some [] ∧
    (demoVideoStart.2.stop_recording).1 =
      some "memos/video_memo_20240101_120000.mp4" ∧
    (((AudioRecorder.init "memos").start_recording true
        "20240101_120000").2.stop_recording).1 = none :=
  video_stop_returns_path_even_with_zero_frames true
    "20240101_120000" "20240101_120000" none (VideoRecorder.init "memos") rfl

/-- C1: the code bug exhibited.  Starting a video recording at timestamp
`20240101_120000` with PyAudio available returns the video path whose
derived sidecar (`memo_module.py:259`,
`video_path.replace('.mp4', '_audio.wav')`) is
`memos/video_memo_20240101_120000_audio.wav` — but the companion
`AudioRecorder.start_recording` call (`memo_module.py:263`)
unconditionally regenerates `_current_file` as a fresh
`voice_memo_<now>.wav` path (`memo_module.py:153-154`), clobbering the
sidecar assignment of `memo_module.py:261`.  The companion capture
therefore targets `memos/voice_memo_20240101_120000.wav`, not the
sidecar path, and after buffering a chunk and stopping the session the
session's audio is written there, so it does not lie at the sidecar
path. -/
theorem video_sidecar_path_clobbered :
    demoVideoStart.1 = some "memos/video_memo_20240101_120000.mp4" ∧
    pyReplace "memos/video_memo_20240101_120000.mp4" ".mp4" "_audio.wav" =
      "memos/video_memo_20240101_120000_audio.wav" ∧
    (demoVideoStart.2.audio_recorder.map AudioRecorder.current_file) =
      some (some "memos/voice_memo_20240101_120000.wav") ∧
    (demoVideoStart.2.audio_recorder.map AudioRecorder.current_file) ≠
      some (some "memos/video_memo_20240101_120000_audio.wav") ∧
    ((demoVideoMidSession.stop_recording).2.1.map WavFile.path) =
      some "memos/voice_memo_20240101_120000.wav" ∧
    ((demoVideoMidSession.stop_recording).2.1.map WavFile.path) ≠
      some "memos/video_memo_20240101_120000_audio.wav" := by
  refine ⟨rfl, by decide, rfl, by decide, rfl, by decide⟩

/-- C9: on a duplicate-free filesystem holding the target path, when
neither removal raises, `delete_memo` removes the target and the derived
sidecar path (`filepath.replace('.mp4', '_audio.wav')`; for a voice memo
this equals the target itself, so only the target is removed) and
returns `True`; when a removal raises an `OSError` — on the target or on
a sidecar that exists — `delete_memo` catches it and returns `False`.
The embedding is a total function, so no exception ever escapes to the
caller. -/
theorem delete_memo_removes_target_and_sidecar (fs : MemoManager.FSState)
    (p : String) (hnd : fs.files.Nodup) (hp : p ∈ fs.files) :
    ((p ∉ fs.failing ∧ pyReplace p ".mp4" "_audio.wav" ∉ fs.failing) →
       MemoManager.delete_memo fs p =
         (true, { files := (fs.files.erase p).erase
                    (pyReplace p ".mp4" "_audio.wav"),
                  failing := fs.failing }) ∧
       p ∉ (MemoManager.delete_memo fs p).2.files ∧
       pyReplace p ".mp4" "_audio.wav" ∉ (MemoManager.delete_memo fs p).2.files) ∧
    ((p ∈ fs.failing ∨
        (pyReplace p ".mp4" "_audio.wav" ∈ fs.files.erase p ∧
         pyReplace p ".mp4" "_audio.wav" ∈ fs.failing)) →
       (MemoManager.delete_memo fs p).1 = false) := by
  constructor
  · rintro ⟨hpf, hscf⟩
    have hstep : MemoManager.delete_memo fs p =
        (true, { files := (fs.files.erase p).erase
                   (pyReplace p ".mp4" "_audio.wav"),
                 failing := fs.failing }) := by
      unfold MemoManager.delete_memo MemoManager.osRemove
      by_cases hmem : pyReplace p ".mp4" "_audio.wav" ∈ fs.files.erase p
      · simp [hp, hpf, hscf, hmem]
      · simp [hp, hpf, hscf, hmem, List.erase_of_not_mem hmem]
    refine ⟨hstep, ?_, ?_⟩
    · rw [hstep]
      intro hmem2
      have h1 : p ∈ fs.files.erase p := List.mem_of_mem_erase hmem2
      rw [List.Nodup.mem_erase_iff hnd] at h1
      exact h1.1 rfl
    · rw [hstep]
      intro hmem2
      rw [List.Nodup.mem_erase_iff (hnd.erase p)] at hmem2
      exact hmem2.1 rfl
  · intro herr
    by_cases hpf : p ∈ fs.failing
    · unfold MemoManager.delete_memo MemoManager.osRemove
      simp [hp, hpf]
    · rcases herr with h | ⟨hmem, hscf⟩
      · exact absurd h hpf
      · unfold MemoManager.delete_memo MemoManager.osRemove
        simp [hp, hpf, hmem, hscf]

/-- C9 witness: deleting the video memo of `demoFS` (no failing
removals) succeeds and removes both the memo and its sidecar. -/
theorem delete_memo_removes_target_and_sidecar_witness :
    MemoManager.delete_memo demoFS "memos/video_memo_20240101_120000.mp4" =
      (true, { files := ((demoFS.files.erase
                 "memos/video_memo_20240101_120000.mp4").erase
                   (pyReplace "memos/video_memo_20240101_120000.mp4"
                     ".mp4" "_audio.wav")),
               failing := demoFS.failing }) ∧
    "memos/video_memo_20240101_120000.mp4" ∉
      (MemoManager.delete_memo demoFS
        "memos/video_memo_20240101_120000.mp4").2.files ∧
    pyReplace "memos/video_memo_20240101_120000.mp4" ".mp4" "_audio.wav" ∉
      (MemoManager.delete_memo demoFS
        "memos/video_memo_20240101_120000.mp4").2.files :=
  (delete_memo_removes_target_and_sidecar demoFS
      "memos/video_memo_20240101_120000.mp4"
      (by decide) (by decide)).1 ⟨by decide, by decide⟩

/-- Helper: membership in an `insertByKeyDesc` result. -/
theorem mem_insertByKeyDesc {x a : MemoRecord} {l : List MemoRecord} :
    x ∈ MemoManager.insertByKeyDesc a l ↔ x = a ∨ x ∈ l := by
  induction l with
  | nil => simp [MemoManager.insertByKeyDesc]
  | cons b bs ih =>
    rw [MemoManager.insertByKeyDesc]
    by_cases hc : a.timestampKey < b.timestampKey
    · rw [if_pos hc]
      simp only [List.mem_cons, ih]
      tauto
    · rw [if_neg hc]
      simp only [List.mem_cons]

/-- Helper: membership in a `sortByKeyDesc` result. -/
theorem mem_sortByKeyDesc {x : MemoRecord} {l : List MemoRecord} :
    x ∈ MemoManager.sortByKeyDesc l ↔ x ∈ l := by
  induction l with
  | nil => simp [MemoManager.sortByKeyDesc]
  | cons a as ih =>
    rw [MemoManager.sortByKeyDesc]
    simp only [mem_insertByKeyDesc, ih, List.mem_cons]

/-- Helper: `insertByKeyDesc` preserves descending sortedness. -/
theorem sorted_insertByKeyDesc {a : MemoRecord} {l : List MemoRecord}
    (h : l.Sorted MemoManager.newestFirst) :
    (MemoManager.insertByKeyDesc a l).Sorted MemoManager.newestFirst := by
  induction l with
  | nil => simp [MemoManager.insertByKeyDesc]
  | cons b bs ih =>
    rw [List.sorted_cons] at h
    rw [MemoManager.insertByKeyDesc]
    by_cases hc : a.timestampKey < b.timestampKey
    · rw [if_pos hc, List.sorted_cons]
      refine ⟨?_, ih h.2⟩
      intro x hx
      rcases mem_insertByKeyDesc.mp hx with rfl | hx
      · exact Nat.le_of_lt hc
      · exact h.1 x hx
    · rw [if_neg hc, List.sorted_cons]
      refine ⟨?_, List.sorted_cons.mpr h⟩
      intro x hx
      rcases List.mem_cons.mp hx with rfl | hx
      · exact Nat.le_of_not_lt hc
      · exact Nat.le_trans (h.1 x hx) (Nat.le_of_not_lt hc)

/-- Helper: `sortByKeyDesc` yields a descending-sorted list. -/
theorem sorted_sortByKeyDesc (l : List MemoRecord) :
    (MemoManager.sortByKeyDesc l).Sorted MemoManager.newestFirst := by
  induction l with
  | nil => simp [MemoManager.sortByKeyDesc]
  | cons a as ih =>
    rw [MemoManager.sortByKeyDesc]
    exact sorted_insertByKeyDesc ih

/-- Helper: a record produced by `classify` carries no `"_audio.wav"`
in its name and matches exactly one of the two memo naming patterns,
with the corresponding kind. -/
theorem classify_some {dir : String} {f : FileEntry} {m : MemoRecord}
    (h : MemoManager.classify dir f = some m) :
    pyContains "_audio.wav" m.filename = false ∧
    ((pyStartswith m.filename "voice_memo" = true ∧
      pyEndswith m.filename ".wav" = true ∧ m.type = "voice") ∨
     (pyStartswith m.filename "video_memo" = true ∧
      pyEndswith m.filename ".mp4" = true ∧ m.type = "video")) := by
  unfold MemoManager.classify at h
  by_cases h1 : f.is_file = false
  · rw [if_pos h1] at h
    cases h
  rw [if_neg h1] at h
  by_cases h2 : pyContains "_audio.wav" f.filename = true
  · rw [if_pos h2] at h
    cases h
  rw [if_neg h2] at h
  by_cases h3 : pyStartswith f.filename "voice_memo" = true ∧
      pyEndswith f.filename ".wav" = true
  · rw [if_pos h3] at h
    simp only [Option.some.injEq] at h
    subst h
    exact ⟨Bool.not_eq_true _ ▸ Bool.of_not_eq_true h2,
      Or.inl ⟨h3.1, h3.2, rfl⟩⟩
  rw [if_neg h3] at h
  by_cases h4 : pyStartswith f.filename "video_memo" = true ∧
      pyEndswith f.filename ".mp4" = true
  · rw [if_pos h4] at h
    simp only [Option.some.injEq] at h
    subst h
    exact ⟨Bool.of_not_eq_true h2, Or.inr ⟨h4.1, h4.2, rfl⟩⟩
  rw [if_neg h4] at h
  cases h

/-- C7: `get_all_memos` never returns a record whose filename contains
the `"_audio.wav"` sidecar suffix or matches neither the voice-memo nor
the video-memo naming pattern; its result is sorted newest-first; and on
a directory holding `video_memo_20240101_120000.mp4` together with its
sidecar `video_memo_20240101_120000_audio.wav` it returns exactly one
record — the video memo, with timestamp 2024-01-01 12:00:00 — and
excludes the sidecar. -/
theorem get_all_memos_excludes_sidecars :
    (∀ (dir : String) (dir_exists : Bool) (listing : List FileEntry)
       (m : MemoRecord), m ∈ MemoManager.get_all_memos dir dir_exists listing →
         pyContains "_audio.wav" m.filename = false ∧
         ((pyStartswith m.filename "voice_memo" = true ∧
           pyEndswith m.filename ".wav" = true ∧ m.type = "voice") ∨
          (pyStartswith m.filename "video_memo" = true ∧
           pyEndswith m.filename ".mp4" = true ∧ m.type = "video"))) ∧
    (∀ (dir : String) (dir_exists : Bool) (listing : List FileEntry),
       (MemoManager.get_all_memos dir dir_exists listing).Sorted
         MemoManager.newestFirst) ∧
    (MemoManager.get_all_memos "memos" true demoListing = [demoVideoRecord] ∧
     demoVideoRecord.type = "video" ∧
     demoVideoRecord.timestampKey = datetimeKey 2024 1 1 12 0 0) := by
  refine ⟨?_, ?_, by decide, rfl, rfl⟩
  · intro dir dir_exists listing m hm
    unfold MemoManager.get_all_memos at hm
    by_cases hex : dir_exists = false
    · rw [if_pos hex] at hm
      cases hm
    rw [if_neg hex] at hm
    rw [mem_sortByKeyDesc] at hm
    obtain ⟨f, _, hcl⟩ := List.mem_filterMap.mp hm
    exact classify_some hcl
  · intro dir dir_exists listing
    unfold MemoManager.get_all_memos
    by_cases hex : dir_exists = false
    · rw [if_pos hex]
      simp
    rw [if_neg hex]
    exact sorted_sortByKeyDesc _

/-- C7 witness: the record returned for `demoListing` indeed carries no
sidecar suffix and matches the video-memo pattern. -/
theorem get_all_memos_excludes_sidecars_witness :
    pyContains "_audio.wav" demoVideoRecord.filename = false ∧
    ((pyStartswith demoVideoRecord.filename "voice_memo" = true ∧
      pyEndswith demoVideoRecord.filename ".wav" = true ∧
      demoVideoRecord.type = "voice") ∨
     (pyStartswith demoVideoRecord.filename "video_memo" = true ∧
      pyEndswith demoVideoRecord.filename ".mp4" = true ∧
      demoVideoRecord.type = "video")) :=
  get_all_memos_excludes_sidecars.1 "memos" true demoListing demoVideoRecord
    (by decide)
